import Mathlib

set_option maxRecDepth 100000

/-!
Verification of the Instagram trend analyzer backend.

This file gives a shallow embedding of the repository's database layer
(`db.py`) and of the Gemini client (`gemini_utils.py`), together with the
persistence step of the analyze-profile endpoint (`main.py`), and proves the
behavioural properties stated about them.

Modelling conventions:
- Timestamps are integers (seconds); `timedelta(hours=1)` is 3600.
- Python dict inputs are records of `Option` fields: `d[k]` on a missing key
  is a `KeyError`, modelled as `Except.error`; `d.get(k, v)` is `Option.getD`.
- A SQLAlchemy table is a `List` of row records; a call either commits
  (`Except.ok newTable`) or rolls back (`Except.error`, the caller keeps the
  old table).
- The session is created with `autoflush=False` (db.py line 12), so a query
  issued during a call sees only the committed table, never the rows added
  by `session.add` earlier in the same call.
- Remote-call behaviour (`model.generate_content`) is an oracle
  `generate : String → Nat → RemoteResult` (prompt, attempt number);
  `json.loads` is an oracle `parse : String → Option JValue`.
- Thread scheduling for the parallel dispatch is an explicit completion
  order: the list of future indices that complete within the 30 s timeout,
  in the order `concurrent.futures.as_completed` yields them.
-/

/-- Python string slicing `s[:n]`: the first `n` characters. -/
def pyTake (s : String) (n : Nat) : String :=
  String.mk (s.toList.take n)

/- ===================== Database layer (db.py, models.py) ===================== -/

/-- A row of the `trending_data` table (models.py, `TrendingData`). -/
structure TrendRow where
  hashtag : String
  caption : String
  post_url : Option String
  likes : Int
  comments : Int
  fetched_at : Int
deriving DecidableEq

/-- A trend input dict as consumed by `Database.insert_trending_data`:
`trend['hashtag']` and `trend['caption']` are required lookups (KeyError when
absent), the rest are `.get` lookups with defaults. -/
structure TrendDict where
  hashtag : Option String
  caption : Option String
  post_url : Option String
  likes : Option Int
  comments : Option Int
deriving DecidableEq

/-- The loop body of `Database.insert_trending_data` (db.py lines 30-45),
returning the list of rows pending insertion.  The duplicate check queries
the committed table only: with `autoflush=False`, rows added earlier in the
same call are not yet visible to `session.query`.  A missing required key
raises, which rolls the whole call back. -/
def insertLoop (table : List TrendRow) (now : Int) : List TrendDict → Except Unit (List TrendRow)
  | [] => .ok []
  | t :: ts =>
    match t.hashtag, t.caption with
    | some h, some c =>
      match insertLoop table now ts with
      | .error e => .error e
      | .ok rest =>
        if table.any (fun r => r.hashtag == h && r.caption == c) then
          .ok rest
        else
          .ok (⟨h, c, t.post_url, t.likes.getD 0, t.comments.getD 0, now⟩ :: rest)
    | _, _ => .error ()

/-- `Database.insert_trending_data` (db.py lines 26-52): insert each trend
whose (hashtag, caption) pair has no committed row, then commit; on any
exception, roll back. -/
def insertTrendingData (table : List TrendRow) (trends : List TrendDict) (now : Int) :
    Except Unit (List TrendRow) :=
  match insertLoop table now trends with
  | .error e => .error e
  | .ok pending => .ok (table ++ pending)

/-- The table as the caller observes it after a call to
`insert_trending_data`: the committed table on success, the unchanged table
after a rollback. -/
def runInsert (table : List TrendRow) (trends : List TrendDict) (now : Int) : List TrendRow :=
  match insertTrendingData table trends now with
  | .ok t2 => t2
  | .error _ => table

/-- Number of rows of the table carrying a given (hashtag, caption) pair. -/
def countPair (table : List TrendRow) (h c : String) : Nat :=
  (table.filter (fun r => r.hashtag == h && r.caption == c)).length

/-- Number of occurrences of a given (hashtag, caption) pair in an input
batch of trend dicts. -/
def occPair (trends : List TrendDict) (h c : String) : Nat :=
  (trends.filter (fun t => t.hashtag == some h && t.caption == some c)).length

/-- `Database.get_last_fetch_time` (db.py lines 65-74): the `fetched_at` of
the row maximal in `fetched_at` (ORDER BY fetched_at DESC LIMIT 1), absent
when the table is empty. -/
def getLastFetchTime (table : List TrendRow) : Option Int :=
  table.foldl
    (fun acc r =>
      match acc with
      | none => some r.fetched_at
      | some m => some (max m r.fetched_at))
    none

/-- `Database.should_fetch_trends` (db.py lines 76-82): fetch when no prior
fetch exists, or when more than one hour (3600 s) has elapsed since it. -/
def shouldFetchTrends (table : List TrendRow) (now : Int) : Bool :=
  match getLastFetchTime table with
  | none => true
  | some t => decide (now - t > 3600)

/-- A row of the `matched_trends` table (models.py, `MatchedTrends`). -/
structure MatchedRow where
  username : String
  hashtag : String
  match_score : Int
  reasoning : String
  created_at : Int
deriving DecidableEq

/-- A match input dict as consumed by `Database.save_matched_trends`: all
three lookups are required (`match['hashtag']` etc., KeyError when absent). -/
structure MatchDict where
  hashtag : Option String
  match_score : Option Int
  reasoning : Option String
deriving DecidableEq

/-- Build one `matched_trends` row from a match dict (db.py lines 94-102);
a missing key raises. -/
def matchToRow (username : String) (now : Int) (m : MatchDict) : Except Unit MatchedRow :=
  match m.hashtag, m.match_score, m.reasoning with
  | some h, some s, some r => .ok ⟨username, h, s, r, now⟩
  | _, _, _ => .error ()

/-- The insertion loop of `save_matched_trends`: convert every match dict,
failing the whole call on the first missing key. -/
def rowsOfBatch (username : String) (now : Int) : List MatchDict → Except Unit (List MatchedRow)
  | [] => .ok []
  | m :: ms =>
    match matchToRow username now m with
    | .error e => .error e
    | .ok r =>
      match rowsOfBatch username now ms with
      | .error e => .error e
      | .ok rs => .ok (r :: rs)

/-- `Database.save_matched_trends` (db.py lines 84-109): delete every row of
the handle, insert one row per match dict, commit as a unit; any exception
rolls the delete back as well. -/
def saveMatchedTrends (table : List MatchedRow) (username : String) (batch : List MatchDict)
    (now : Int) : Except Unit (List MatchedRow) :=
  match rowsOfBatch username now batch with
  | .error e => .error e
  | .ok rows => .ok (table.filter (fun r => !(r.username == username)) ++ rows)

/-- The persistence step of the analyze-profile endpoint (main.py lines
112-118): `save_matched_trends` is called only when the match list is
non-empty (`if trend_matches:`), and a failure of the save is swallowed. -/
def persistMatches (table : List MatchedRow) (username : String) (trendMatches : List MatchDict)
    (now : Int) : List MatchedRow :=
  if trendMatches.isEmpty then table
  else
    match saveMatchedTrends table username trendMatches now with
    | .ok t2 => t2
    | .error _ => table

/- ===================== JSON and Python value model ===================== -/

/-- A JSON value, the result of a successful `json.loads`. -/
inductive JValue where
  | str (s : String)
  | num (n : Int)
  | bool (b : Bool)
  | null
  | arr (xs : List JValue)
  | obj (fields : List (String × JValue))

/-- Python equality of a JSON value against a string (used by `k in lst`):
only a string element can compare equal to a string. -/
def eqStr (v : JValue) (k : String) : Bool :=
  match v with
  | .str s => s == k
  | _ => false

/-- Substring occurrence on character lists (Python `needle in haystack`). -/
def charsContain : List Char → List Char → Bool
  | [], pat => pat.isEmpty
  | c :: rest, pat => pat.isPrefixOf (c :: rest) || charsContain rest pat

/-- Python `needle in haystack` on strings. -/
def pyStrIn (needle hay : String) : Bool :=
  charsContain hay.toList needle.toList

/-- Python `k in v`: key membership for dicts, element equality for lists,
substring for strings, `TypeError` otherwise. -/
def pyContains (v : JValue) (k : String) : Except Unit Bool :=
  match v with
  | .obj fs => .ok (fs.any (fun kv => kv.1 == k))
  | .arr xs => .ok (xs.any (fun x => eqStr x k))
  | .str s => .ok (pyStrIn k s)
  | _ => .error ()

/-- Set a key on a dict, replacing the first binding of the key if present;
`v[k] = x` on a non-dict raises `TypeError`. -/
def setKey (k : String) (x : JValue) : List (String × JValue) → List (String × JValue)
  | [] => [(k, x)]
  | kv :: rest => if kv.1 == k then (k, x) :: rest else kv :: setKey k x rest

/-- Python `v[k] = x` for a string key. -/
def pySetItem (v : JValue) (k : String) (x : JValue) : Except Unit JValue :=
  match v with
  | .obj fs => .ok (.obj (setKey k x fs))
  | _ => .error ()

/-- Python `v[k]` for a string key: `KeyError` on a missing dict key,
`TypeError` on a non-dict. -/
def pyGetItem (v : JValue) (k : String) : Except Unit JValue :=
  match v with
  | .obj fs =>
    match fs.lookup k with
    | some x => .ok x
    | none => .error ()
  | _ => .error ()

/-- Python `len(v)`: defined for strings, lists and dicts, `TypeError`
otherwise. -/
def pyLen (v : JValue) : Except Unit Nat :=
  match v with
  | .str s => .ok s.length
  | .arr xs => .ok xs.length
  | .obj fs => .ok fs.length
  | _ => .error ()

/-- The transient `UserInterests` pydantic model (models.py lines 37-42). -/
structure UserInterestsM where
  primary_interests : List String
  content_style : String
  preferred_formats : List String
  audience_type : String
  tone : String
deriving DecidableEq

/-- A string-typed JSON field, as pydantic accepts it. -/
def asStr : JValue → Option String
  | .str s => some s
  | _ => none

/-- A list-of-strings JSON field, as pydantic accepts it. -/
def asStrList : JValue → Option (List String)
  | .arr xs => xs.mapM asStr
  | _ => none

/-- `UserInterests(**profile_data)`: a dict carrying all five required
fields with the declared shapes validates; anything else raises (strict
shapes; pydantic's lax coercions are not modelled, no claim depends on
them). -/
def jToUserInterests (v : JValue) : Option UserInterestsM :=
  match v with
  | .obj fs =>
    match fs.lookup "primary_interests", fs.lookup "content_style",
        fs.lookup "preferred_formats", fs.lookup "audience_type", fs.lookup "tone" with
    | some jpi, some jcs, some jpf, some jau, some jto =>
      match asStrList jpi, asStr jcs, asStrList jpf, asStr jau, asStr jto with
      | some pi, some cs, some pf, some au, some tn => some ⟨pi, cs, pf, au, tn⟩
      | _, _, _, _, _ => none
    | _, _, _, _, _ => none
  | _ => none

/- ===================== Gemini client (gemini_utils.py) ===================== -/

/-- Outcome of one `model.generate_content` call: a response text, or a
raised exception. -/
inductive RemoteResult where
  | ok (text : String)
  | exn
deriving DecidableEq

/-- Observable outcome of `_make_request_with_retry`: the validated
(fence-stripped) response text; the `ValueError` raised after exhausting
JSON retries; the re-raised last remote exception; or the implicit `None`
returned when the loop body never runs (`max_retries = 0`). -/
inductive RequestOutcome where
  | success (text : String)
  | valueError
  | raised
  | retNone
deriving DecidableEq

/-- Python `s.strip()`: drop whitespace from both ends. -/
def pyStrip (s : String) : String :=
  String.mk (((s.toList.dropWhile Char.isWhitespace).reverse.dropWhile
    Char.isWhitespace).reverse)

/-- Python `s.startswith(pat)`. -/
def pyStartsWith (s pat : String) : Bool :=
  pat.toList.isPrefixOf s.toList

/-- Replace every non-overlapping occurrence of `old` by `new`, left to
right; `fuel` bounds the recursion (the input length suffices since `old`
is non-empty wherever this is called). -/
def replaceFuel (old new : List Char) : Nat → List Char → List Char
  | 0, s => s
  | _ + 1, [] => []
  | fuel + 1, c :: rest =>
    if old.isPrefixOf (c :: rest) then
      match old with
      | [] => c :: rest
      | _ :: _ => new ++ replaceFuel old new fuel ((c :: rest).drop old.length)
    else c :: replaceFuel old new fuel rest

/-- Python `s.replace(old, new)` (for the non-empty `old` patterns the code
uses). -/
def pyReplace (s old new : String) : String :=
  String.mk (replaceFuel old.toList new.toList s.toList.length s.toList)

/-- The response-cleaning step of `_make_request_with_retry` (gemini_utils.py
lines 32-38): strip, then remove Markdown code fences when present. -/
def cleanResponse (raw : String) : String :=
  let t := pyStrip raw
  if pyStartsWith t "```json" then
    pyStrip (pyReplace (pyReplace t "```json" "") "```" "")
  else if pyStartsWith t "```" then
    pyStrip (pyReplace t "```" "")
  else t

/-- The attempt loop of `_make_request_with_retry` (gemini_utils.py lines
26-67).  `respond n` is the remote call's behaviour on attempt `n`, `parse`
models `json.loads` (`none` = `JSONDecodeError`).  Returns the outcome, the
number of attempts issued, and the chronological list of sleep durations
(seconds): a fixed 2 s between attempts after a JSON-parse failure, and
3 + 2·attempt after any other failure.  The `ValueError` raised on the last
attempt is caught by the outer handler and re-raised unchanged.  `fuel` is
`maxRetries - attempt`, the number of loop iterations left. -/
def retryGo (respond : Nat → RemoteResult) (parse : String → Option JValue)
    (expectedFormat : String) (maxRetries : Nat) :
    Nat → Nat → RequestOutcome × Nat × List Nat
  | _, 0 => (.retNone, 0, [])
  | attempt, fuel + 1 =>
    match respond attempt with
    | .ok text =>
      let cleaned := cleanResponse text
      if expectedFormat == "json" then
        if (parse cleaned).isSome then (.success cleaned, 1, [])
        else if attempt < maxRetries - 1 then
          let r := retryGo respond parse expectedFormat maxRetries (attempt + 1) fuel
          (r.1, r.2.1 + 1, 2 :: r.2.2)
        else (.valueError, 1, [])
      else (.success cleaned, 1, [])
    | .exn =>
      if attempt < maxRetries - 1 then
        let r := retryGo respond parse expectedFormat maxRetries (attempt + 1) fuel
        (r.1, r.2.1 + 1, (3 + attempt * 2) :: r.2.2)
      else (.raised, 1, [])

/-- `GeminiClient._make_request_with_retry` (gemini_utils.py lines 24-67).
`generate prompt n` models `self.model.generate_content(prompt)` on attempt
`n`. -/
def makeRequestWithRetry (generate : String → Nat → RemoteResult)
    (parse : String → Option JValue) (prompt : String) (expectedFormat : String)
    (maxRetries : Nat) : RequestOutcome × Nat × List Nat :=
  retryGo (generate prompt) parse expectedFormat maxRetries 0 maxRetries

/-- Result of a Python call that either returns or raises
`concurrent.futures.TimeoutError`. -/
inductive PyResult (α : Type) where
  | ok (a : α)
  | timeoutError
deriving DecidableEq

/-- What the dispatch loop appends for the future of prompt `i`:
`future.result()` on success, the empty string when `result()` re-raises
the call's exception (gemini_utils.py lines 82-87).  (`retNone` cannot
arise here: the dispatch always submits with the default `max_retries=3`.) -/
def resultString (outcomes : List RequestOutcome) (i : Nat) : String :=
  match outcomes.get? i with
  | some (RequestOutcome.success t) => t
  | _ => ""

/-- `GeminiClient._process_requests_parallel` (gemini_utils.py lines 69-89).
`outcomes` are the per-prompt outcomes of `_make_request_with_retry`;
`order` is the completion schedule: the indices of the futures that complete
within the 30 s timeout, in completion order.  `as_completed` yields each
completed future in that order; if the timeout elapses first, the iterator
itself raises `TimeoutError` — outside the `try` around `future.result()` —
so the exception propagates and no list is returned. -/
def processRequestsParallel (outcomes : List RequestOutcome) (order : List Nat) :
    PyResult (List String) :=
  if order.length < outcomes.length then .timeoutError
  else .ok (order.map (resultString outcomes))

/-- The three prompts of `analyze_profile_fast` (gemini_utils.py lines
94-121): profile analysis, trend matching, post suggestions. -/
def buildFastPrompts (bio : String) (postCaptions trendingHashtags : List String) :
    List String :=
  let captions := postCaptions.take 3
  let captionsText := String.intercalate "\n" (captions.map (fun caption =>
    if caption.length > 100 then "- " ++ pyTake caption 100 ++ "..." else "- " ++ caption))
  ["Analyze this Instagram profile quickly:\nBio: " ++ pyTake bio 200 ++
     "\nRecent posts: " ++ captionsText ++
     "\n\nReturn ONLY this JSON format:\n\x7b\"primary_interests\": [\"list\", \"of\", \"interests\"], \"content_style\": \"style\", \"preferred_formats\": [\"formats\"], \"audience_type\": \"audience\", \"tone\": \"tone\"\x7d",
   "Match these trends to a user interested in: " ++ pyTake bio 100 ++
     "\nTrends: " ++ String.intercalate ", " (trendingHashtags.take 10) ++
     "\n\nReturn ONLY this JSON array with top 5 matches:\n[\x7b\"hashtag\": \"#tag\", \"match_score\": 85, \"reasoning\": \"brief reason\"\x7d]",
   "Generate 2 quick post ideas for each hashtag: " ++
     String.intercalate ", " (trendingHashtags.take 3) ++
     "\nBased on: " ++ pyTake bio 100 ++
     "\n\nReturn ONLY this JSON:\n[\x7b\"trend_hashtag\": \"#tag\", \"suggestions\": [\"idea1\", \"idea2\"]\x7d]"]

/-- `GeminiClient.analyze_profile_fast` (gemini_utils.py lines 91-158):
dispatch the three prompts through the parallel primitive under completion
schedule `order`, then parse `results[0]` as profile interests, `results[1]`
as trend matches and `results[2]` as post suggestions, each facet degrading
independently; a `TimeoutError` (or missing index) is caught by the outer
handler, which returns `(None, [], [])`. -/
def analyzeProfileFast (generate : String → Nat → RemoteResult)
    (parse : String → Option JValue) (bio : String)
    (postCaptions trendingHashtags : List String) (order : List Nat) :
    Option UserInterestsM × JValue × JValue :=
  let prompts := buildFastPrompts bio postCaptions trendingHashtags
  let outcomes := prompts.map (fun p => (makeRequestWithRetry generate parse p "json" 3).1)
  match processRequestsParallel outcomes order with
  | .timeoutError => (none, .arr [], .arr [])
  | .ok results =>
    let r0 := results.getD 0 ""
    let r1 := results.getD 1 ""
    let r2 := results.getD 2 ""
    let userInterests : Option UserInterestsM :=
      if r0.isEmpty then none
      else
        match parse r0 with
        | some v => jToUserInterests v
        | none => none
    let matchedTrends : JValue :=
      if r1.isEmpty then .arr [] else (parse r1).getD (.arr [])
    let postSuggestions : JValue :=
      if r2.isEmpty then .arr [] else (parse r2).getD (.arr [])
    (userInterests, matchedTrends, postSuggestions)

/-- The hard-coded default interests dict of `analyze_profile_complete`
(gemini_utils.py lines 206-212 and 226-232). -/
def defaultInterests : JValue :=
  .obj [("primary_interests", .arr [.str "lifestyle"]),
        ("content_style", .str "casual"),
        ("preferred_formats", .arr [.str "photos"]),
        ("audience_type", .str "general"),
        ("tone", .str "personal")]

/-- The dict returned by `analyze_profile_complete` on any failure
(gemini_utils.py lines 225-235). -/
def defaultAnalysis : JValue :=
  .obj [("user_interests", defaultInterests),
        ("matched_trends", .arr []),
        ("post_suggestions", .arr [])]

/-- The single comprehensive prompt of `analyze_profile_complete`
(gemini_utils.py lines 163-198), with the input caps applied inline: bio
`[:200]`, first 3 captions each `[:100]`, first 10 hashtags. -/
def buildCompletePrompt (bio : String) (postCaptions trendingHashtags : List String) : String :=
  let captionsText := String.intercalate "\n"
    ((postCaptions.take 3).map (fun caption => "- " ++ pyTake caption 100))
  let hashtagsText := String.intercalate ", " (trendingHashtags.take 10)
  "Analyze this Instagram profile and return ONE complete JSON with ALL analysis:\n\nBio: " ++
    pyTake bio 200 ++
    "\nRecent Posts:\n" ++ captionsText ++
    "\nAvailable Hashtags: " ++ hashtagsText ++
    "\n\nReturn ONLY this EXACT JSON structure:\n\x7b\n    \"user_interests\": \x7b\n        \"primary_interests\": [\"interest1\", \"interest2\"],\n        \"content_style\": \"casual/professional/artistic\",\n        \"preferred_formats\": [\"photos\", \"reels\"],\n        \"audience_type\": \"target audience\",\n        \"tone\": \"personal/inspirational/educational\"\n    \x7d,\n    \"matched_trends\": [\n        \x7b\n            \"hashtag\": \"#hashtag1\",\n            \"match_score\": 85,\n            \"reasoning\": \"why it matches\"\n        \x7d\n    ],\n    \"post_suggestions\": [\n        \x7b\n            \"trend_hashtag\": \"#hashtag1\",\n            \"suggestions\": [\"idea 1\", \"idea 2\"]\n        \x7d\n    ]\n\x7d\n\nIMPORTANT: Return ONLY the JSON above, no other text."

/-- The `try` body of `analyze_profile_complete` (gemini_utils.py lines
200-221): request, parse, ensure the three keys exist (Python `in` / `[]=`
semantics on whatever value parsed), then evaluate the success log line,
whose `result['matched_trends']` / `len(...)` expressions can raise on
non-dict shapes. -/
def analyzeCompleteBody (generate : String → Nat → RemoteResult)
    (parse : String → Option JValue) (prompt : String) : Except Unit JValue := do
  match (makeRequestWithRetry generate parse prompt "json" 3).1 with
  | .success text =>
    match parse text with
    | some result => do
      let b1 ← pyContains result "user_interests"
      let result ← if b1 then pure result else pySetItem result "user_interests" defaultInterests
      let b2 ← pyContains result "matched_trends"
      let result ← if b2 then pure result else pySetItem result "matched_trends" (.arr [])
      let b3 ← pyContains result "post_suggestions"
      let result ← if b3 then pure result else pySetItem result "post_suggestions" (.arr [])
      let mt ← pyGetItem result "matched_trends"
      let _ ← pyLen mt
      let ps ← pyGetItem result "post_suggestions"
      let _ ← pyLen ps
      pure result
    | none => .error ()
  | _ => .error ()

/-- `GeminiClient.analyze_profile_complete` (gemini_utils.py lines 160-235):
the whole body is wrapped in `try`, and any exception yields the hard-coded
default analysis dict instead of propagating. -/
def analyzeProfileComplete (generate : String → Nat → RemoteResult)
    (parse : String → Option JValue) (bio : String)
    (postCaptions trendingHashtags : List String) : JValue :=
  match analyzeCompleteBody generate parse (buildCompletePrompt bio postCaptions trendingHashtags) with
  | .ok r => r
  | .error _ => defaultAnalysis

/-- `isinstance(m, dict) and 'hashtag' in m and 'match_score' in m`
(gemini_utils.py line 271). -/
def isValidMatch (m : JValue) : Bool :=
  match m with
  | .obj fs => fs.any (fun kv => kv.1 == "hashtag") && fs.any (fun kv => kv.1 == "match_score")
  | _ => false

/-- `isinstance(s, dict) and 'trend_hashtag' in s and 'suggestions' in s`
(gemini_utils.py line 305). -/
def isValidSuggestion (s : JValue) : Bool :=
  match s with
  | .obj fs =>
    fs.any (fun kv => kv.1 == "trend_hashtag") && fs.any (fun kv => kv.1 == "suggestions")
  | _ => false

/-- The prompt of `match_trends_to_interests` (gemini_utils.py lines
248-265). -/
def buildMatchPrompt (ui : UserInterestsM) (trendingHashtags : List String) : String :=
  let interestsText := String.intercalate ", " ui.primary_interests
  let hashtagsText := String.intercalate ", " (trendingHashtags.take 8)
  "Match hashtags to user profile:\n\nUser: " ++ interestsText ++ ", " ++
    ui.content_style ++ " style, " ++ ui.audience_type ++ " audience\n\nHashtags: " ++
    hashtagsText ++
    "\n\nEXPECTED OUTPUT (copy this exact format):\n[\n    \x7b\"hashtag\": \"#fitness\", \"match_score\": 85, \"reasoning\": \"matches health interest\"\x7d,\n    \x7b\"hashtag\": \"#lifestyle\", \"match_score\": 70, \"reasoning\": \"fits casual style\"\x7d\n]\n\nReturn ONLY the JSON array above with scores >60. No extra text."

/-- `GeminiClient.match_trends_to_interests` (gemini_utils.py lines
245-278): the parsed list is returned only when it is a list and every
element is a dict with the `hashtag` and `match_score` keys; any other
parse result, validation failure, or exception yields `[]`. -/
def matchTrendsToInterests (generate : String → Nat → RemoteResult)
    (parse : String → Option JValue) (ui : UserInterestsM)
    (trendingHashtags : List String) : List JValue :=
  match (makeRequestWithRetry generate parse (buildMatchPrompt ui trendingHashtags) "json" 3).1 with
  | .success text =>
    match parse text with
    | some (.arr ms) => if ms.all isValidMatch then ms else []
    | some _ => []
    | none => []
  | _ => []

/-- The prompt of `generate_post_suggestions` (gemini_utils.py lines
283-299). -/
def buildSuggestPrompt (ui : UserInterestsM) (matchedHashtags : List String) : String :=
  let hashtagsText := String.intercalate ", " (matchedHashtags.take 3)
  "Generate post ideas for user profile:\n\nStyle: " ++ ui.content_style ++
    "\nTone: " ++ ui.tone ++ "\nHashtags: " ++ hashtagsText ++
    "\n\nEXPECTED OUTPUT (copy this exact format):\n[\n    \x7b\"trend_hashtag\": \"#fitness\", \"suggestions\": [\"Post idea 1 here\", \"Post idea 2 here\"]\x7d,\n    \x7b\"trend_hashtag\": \"#lifestyle\", \"suggestions\": [\"Post idea 1 here\", \"Post idea 2 here\"]\x7d\n]\n\nReturn ONLY the JSON array above. No extra text."

/-- `GeminiClient.generate_post_suggestions` (gemini_utils.py lines
280-312): same validation policy with the `trend_hashtag` and `suggestions`
keys. -/
def generatePostSuggestions (generate : String → Nat → RemoteResult)
    (parse : String → Option JValue) (ui : UserInterestsM)
    (matchedHashtags : List String) : List JValue :=
  match (makeRequestWithRetry generate parse (buildSuggestPrompt ui matchedHashtags) "json" 3).1 with
  | .success text =>
    match parse text with
    | some (.arr ss) => if ss.all isValidSuggestion then ss else []
    | some _ => []
    | none => []
  | _ => []

/- Concrete oracles used to exhibit the completion-order behaviour of the
multi-call strategy (claim C9). -/

/-- A remote model that echoes every prompt back as its response. -/
def echoGen : String → Nat → RemoteResult := fun p _ => .ok p

/-- A user-interests dict that pydantic accepts. -/
def demoUI : JValue :=
  .obj [("primary_interests", .arr [.str "sports"]),
        ("content_style", .str "casual"),
        ("preferred_formats", .arr [.str "photos"]),
        ("audience_type", .str "general"),
        ("tone", .str "personal")]

/-- A `json.loads` behaviour under which only the trend-matching prompt's
(echoed) response is valid JSON, decoding to `demoUI`. -/
def demoParse : String → Option JValue := fun s =>
  if pyStartsWith s "Match these trends" then some demoUI else none

/- ===================== Theorems: database claims ===================== -/

/-- Helper: every row produced by the `save_matched_trends` insertion loop
carries the handle it was called with. -/
theorem rowsOfBatch_username (u : String) (now : Int) (batch : List MatchDict)
    (rows : List MatchedRow) (h : rowsOfBatch u now batch = .ok rows) :
    ∀ r ∈ rows, r.username = u := by
  induction batch generalizing rows with
  | nil =>
    simp only [rowsOfBatch] at h
    cases h
    simp
  | cons m ms ih =>
    simp only [rowsOfBatch] at h
    cases hm : matchToRow u now m with
    | error e => rw [hm] at h; cases h
    | ok r =>
      rw [hm] at h
      cases hr : rowsOfBatch u now ms with
      | error e => rw [hr] at h; cases h
      | ok rs =>
        rw [hr] at h
        cases h
        intro x hx
        rcases List.mem_cons.mp hx with hx | hx
        · subst hx
          unfold matchToRow at hm
          cases hh : m.hashtag <;> cases hs : m.match_score <;> cases hre : m.reasoning <;>
            rw [hh, hs, hre] at hm <;> cases hm
          rfl
        · exact ih rs hr x hx

/-- Helper: the insertion loop produces one row per match dict. -/
theorem rowsOfBatch_length (u : String) (now : Int) (batch : List MatchDict)
    (rows : List MatchedRow) (h : rowsOfBatch u now batch = .ok rows) :
    rows.length = batch.length := by
  induction batch generalizing rows with
  | nil => simp only [rowsOfBatch] at h; cases h; rfl
  | cons m ms ih =>
    simp only [rowsOfBatch] at h
    cases hm : matchToRow u now m with
    | error e => rw [hm] at h; cases h
    | ok r =>
      rw [hm] at h
      cases hr : rowsOfBatch u now ms with
      | error e => rw [hr] at h; cases h
      | ok rs =>
        rw [hr] at h
        cases h
        simp [ih rs hr]

/-- C3: after a successful `save_matched_trends(H, batch)`, the rows stored
for handle H are exactly the rows built from that batch (one per batch
entry): every pre-existing row for H is gone, nothing accumulates, and rows
of other handles are untouched. -/
theorem c3_save_matched_trends_replaces (table : List MatchedRow) (u : String)
    (batch : List MatchDict) (now : Int) (t2 : List MatchedRow)
    (h : saveMatchedTrends table u batch now = .ok t2) :
    ∃ rows, rowsOfBatch u now batch = .ok rows ∧
      rows.length = batch.length ∧
      t2.filter (fun r => r.username == u) = rows ∧
      t2.filter (fun r => !(r.username == u)) = table.filter (fun r => !(r.username == u)) := by
  unfold saveMatchedTrends at h
  cases hr : rowsOfBatch u now batch with
  | error e => rw [hr] at h; cases h
  | ok rows =>
    rw [hr] at h
    cases h
    refine ⟨rows, rfl, rowsOfBatch_length u now batch rows hr, ?_, ?_⟩
    · rw [List.filter_append]
      have h1 : (table.filter (fun r => !(r.username == u))).filter
          (fun r => r.username == u) = [] := by
        rw [List.filter_filter]
        apply List.filter_eq_nil_iff.mpr
        intro a _
        simp
      have h2 : rows.filter (fun r => r.username == u) = rows := by
        apply List.filter_eq_self.mpr
        intro a ha
        simp [rowsOfBatch_username u now batch rows hr a ha]
      rw [h1, h2, List.nil_append]
    · rw [List.filter_append]
      have h1 : (table.filter (fun r => !(r.username == u))).filter
          (fun r => !(r.username == u)) = table.filter (fun r => !(r.username == u)) := by
        rw [List.filter_filter]
        apply List.filter_congr
        intro a _
        simp
      have h2 : rows.filter (fun r => !(r.username == u)) = [] := by
        apply List.filter_eq_nil_iff.mpr
        intro a ha
        simp [rowsOfBatch_username u now batch rows hr a ha]
      rw [h1, h2, List.append_nil]

/-- Witness for C3: a concrete successful save replaces the handle's rows
with exactly the batch row and keeps the other handle's row. -/
theorem c3_save_matched_trends_replaces_witness :
    ([⟨"bob", "#y", 60, "old", 0⟩, ⟨"alice", "#z", 70, "why", 5⟩] : List MatchedRow).filter
        (fun r => r.username == "alice") = [⟨"alice", "#z", 70, "why", 5⟩] := by
  obtain ⟨rows, h1, _, h3, _⟩ :=
    c3_save_matched_trends_replaces
      [⟨"alice", "#x", 50, "stale", 0⟩, ⟨"bob", "#y", 60, "old", 0⟩] "alice"
      [⟨some "#z", some 70, some "why"⟩] 5
      [⟨"bob", "#y", 60, "old", 0⟩, ⟨"alice", "#z", 70, "why", 5⟩] rfl
  have hrows : rows = [⟨"alice", "#z", 70, "why", 5⟩] := by
    have h2 : rowsOfBatch "alice" 5 [⟨some "#z", some 70, some "why"⟩] =
        Except.ok [(⟨"alice", "#z", 70, "why", 5⟩ : MatchedRow)] := rfl
    rw [h2] at h1
    exact (Except.ok.inj h1).symm
  rw [h3, hrows]

/-- Helper: the (hashtag, caption) row count over a cons. -/
theorem countPair_cons (x : TrendRow) (l : List TrendRow) (h c : String) :
    countPair (x :: l) h c =
      (if x.hashtag = h ∧ x.caption = c then 1 else 0) + countPair l h c := by
  simp only [countPair, List.filter_cons, Bool.and_eq_true, beq_iff_eq]
  split
  · simp [Nat.add_comm]
  · simp

/-- Helper: the (hashtag, caption) occurrence count over a cons. -/
theorem occPair_cons (t : TrendDict) (ts : List TrendDict) (h c : String) :
    occPair (t :: ts) h c =
      (if t.hashtag = some h ∧ t.caption = some c then 1 else 0) + occPair ts h c := by
  simp only [occPair, List.filter_cons, Bool.and_eq_true, beq_iff_eq]
  split
  · simp [Nat.add_comm]
  · simp

/-- Helper: row counts add over table append. -/
theorem countPair_append (l1 l2 : List TrendRow) (h c : String) :
    countPair (l1 ++ l2) h c = countPair l1 h c + countPair l2 h c := by
  simp [countPair, List.filter_append]

/-- Helper: the duplicate check of `insert_trending_data` fires exactly when
the committed table already holds a row for the pair. -/
theorem anyPair_iff (table : List TrendRow) (h c : String) :
    table.any (fun r => r.hashtag == h && r.caption == c) = true ↔
      countPair table h c ≠ 0 := by
  constructor
  · intro hany hlen
    obtain ⟨r, hr, hp⟩ := List.any_eq_true.mp hany
    exact List.filter_eq_nil_iff.mp (List.length_eq_zero.mp hlen) r hr hp
  · intro hne
    cases hany : table.any (fun r => r.hashtag == h && r.caption == c) with
    | true => rfl
    | false =>
      exfalso
      apply hne
      apply List.length_eq_zero.mpr
      apply List.filter_eq_nil_iff.mpr
      intro a ha
      exact fun hpa => by simpa [hpa] using List.any_eq_false.mp hany a ha

/-- Helper: what the `insert_trending_data` loop leaves pending for one
(hashtag, caption) pair.  Because the duplicate query sees only the committed
table, every occurrence of a pair absent from the table is inserted, and no
occurrence of a pair present in the table is. -/
theorem insertLoop_countPair (table : List TrendRow) (now : Int) (hh cc : String) :
    ∀ (trends : List TrendDict) (pending : List TrendRow),
      insertLoop table now trends = Except.ok pending →
      countPair pending hh cc =
        if countPair table hh cc = 0 then occPair trends hh cc else 0 := by
  intro trends
  induction trends with
  | nil =>
    intro pending hok
    simp only [insertLoop] at hok
    cases hok
    simp only [countPair, occPair, List.filter_nil, List.length_nil]
    split <;> rfl
  | cons t ts ih =>
    intro pending hok
    simp only [insertLoop] at hok
    rcases hht : t.hashtag with _ | h1 <;> rw [hht] at hok
    · exact Except.noConfusion hok
    rcases hhc : t.caption with _ | c1 <;> rw [hhc] at hok
    · exact Except.noConfusion hok
    cases hrec : insertLoop table now ts with
    | error e => rw [hrec] at hok; exact Except.noConfusion hok
    | ok rest =>
      rw [hrec] at hok
      have hok2 : (if (table.any fun r => r.hashtag == h1 && r.caption == c1) = true
          then Except.ok rest
          else Except.ok
            ((⟨h1, c1, t.post_url, t.likes.getD 0, t.comments.getD 0, now⟩ : TrendRow) :: rest)) =
          Except.ok pending := hok
      have ihr := ih rest hrec
      cases hdup : table.any (fun r => r.hashtag == h1 && r.caption == c1) with
      | true =>
        rw [hdup] at hok2
        simp only [if_true, eq_self_iff_true, Except.ok.injEq] at hok2
        subst hok2
        by_cases hp : h1 = hh ∧ c1 = cc
        · obtain ⟨e1, e2⟩ := hp
          subst e1; subst e2
          have hne := (anyPair_iff table h1 c1).mp hdup
          rw [if_neg hne] at ihr ⊢
          exact ihr
        · simp only [occPair_cons, hht, hhc, Option.some.injEq, if_neg hp, Nat.zero_add]
          exact ihr
      | false =>
        rw [hdup] at hok2
        simp only [Bool.false_eq_true, if_false, Except.ok.injEq] at hok2
        subst hok2
        by_cases hp : h1 = hh ∧ c1 = cc
        · obtain ⟨e1, e2⟩ := hp
          subst e1; subst e2
          have hz : countPair table h1 c1 = 0 := by
            by_contra hne
            have htrue := (anyPair_iff table h1 c1).mpr hne
            rw [hdup] at htrue
            exact Bool.noConfusion htrue
          rw [if_pos hz] at ihr ⊢
          simp [countPair_cons, occPair_cons, hht, hhc, ihr]
        · simp only [countPair_cons, occPair_cons, hht, hhc, Option.some.injEq,
            if_neg hp, Nat.zero_add]
          exact ihr

/-- C4 counterexample: on an empty table, a single `insert_trending_data`
call whose input list contains the same (hashtag, caption) pair twice stores
two rows for the pair, not one — the duplicate query runs against the
committed table only (`autoflush=False`), so the first pending insert is
invisible to the second check. -/
theorem c4_duplicate_insert_counterexample :
    countPair (runInsert []
      [⟨some "#a", some "cap", none, none, none⟩,
       ⟨some "#a", some "cap", none, none, none⟩] 0) "#a" "cap" = 2 ∧
    countPair (runInsert []
      [⟨some "#a", some "cap", none, none, none⟩,
       ⟨some "#a", some "cap", none, none, none⟩] 0) "#a" "cap" ≠ 1 := by
  constructor <;> decide

/-- C4 as amended: a successful `insert_trending_data` call leaves, for each
(hashtag, caption) pair, the old committed count plus — only when no
committed row for the pair existed — one row per occurrence of the pair in
the input list.  Hence duplicates are skipped across calls (count stays 1),
but a single call repeating a pair inserts one row per occurrence. -/
theorem c4_insert_dedup_amended (table : List TrendRow) (trends : List TrendDict) (now : Int)
    (hh cc : String) (t2 : List TrendRow)
    (hok : insertTrendingData table trends now = Except.ok t2) :
    countPair t2 hh cc = countPair table hh cc +
      (if countPair table hh cc = 0 then occPair trends hh cc else 0) := by
  unfold insertTrendingData at hok
  cases hl : insertLoop table now trends with
  | error e => rw [hl] at hok; exact Except.noConfusion hok
  | ok pending =>
    rw [hl] at hok
    cases hok
    rw [countPair_append, insertLoop_countPair table now hh cc trends pending hl]

/-- Witness for the amended C4: re-inserting a pair already committed leaves
its row count at 1. -/
theorem c4_insert_dedup_amended_witness :
    countPair [(⟨"#a", "cap", none, 0, 0, 0⟩ : TrendRow)] "#a" "cap" = 1 := by
  have h := c4_insert_dedup_amended [⟨"#a", "cap", none, 0, 0, 0⟩]
    [⟨some "#a", some "cap", none, none, none⟩] 1 "#a" "cap"
    [⟨"#a", "cap", none, 0, 0, 0⟩] (by rfl)
  rw [h]
  decide

/-- C5: the staleness check returns true on an empty trending table, false
whenever at most one hour has elapsed since the most recent fetch, and true
whenever more than one hour has elapsed. -/
theorem c5_should_fetch_trends (table : List TrendRow) (now : Int) :
    (table = [] → shouldFetchTrends table now = true) ∧
    (∀ t, getLastFetchTime table = some t →
      ((now - t ≤ 3600 → shouldFetchTrends table now = false) ∧
       (3600 < now - t → shouldFetchTrends table now = true))) := by
  constructor
  · intro h; subst h; rfl
  · intro t ht
    unfold shouldFetchTrends
    rw [ht]
    constructor
    · intro hle
      simp only [decide_eq_false_iff_not, not_lt]
      exact hle
    · intro hlt
      simp only [decide_eq_true_eq]
      exact hlt

/-- Witness for C5: concrete empty-table, exactly-one-hour, and
just-over-one-hour cases. -/
theorem c5_should_fetch_trends_witness :
    shouldFetchTrends [] 0 = true ∧
    shouldFetchTrends [⟨"#a", "c", none, 0, 0, 100⟩] 3700 = false ∧
    shouldFetchTrends [⟨"#a", "c", none, 0, 0, 100⟩] 3701 = true :=
  ⟨(c5_should_fetch_trends [] 0).1 rfl,
   ((c5_should_fetch_trends [⟨"#a", "c", none, 0, 0, 100⟩] 3700).2 100 rfl).1 (by norm_num),
   ((c5_should_fetch_trends [⟨"#a", "c", none, 0, 0, 100⟩] 3701).2 100 rfl).2 (by norm_num)⟩

/-- C10: with an empty match list the analyze-profile endpoint skips
`save_matched_trends` and the handle's stored rows are untouched, whereas
calling `save_matched_trends` with the empty batch would have deleted them
all (replaced them by the empty batch). -/
theorem c10_empty_matches_not_saved (table : List MatchedRow) (u : String) (now : Int) :
    persistMatches table u [] now = table ∧
    saveMatchedTrends table u [] now =
      Except.ok (table.filter (fun r => !(r.username == u))) := by
  constructor
  · rfl
  · simp [saveMatchedTrends, rowsOfBatch]

/- ===================== Theorems: Gemini client claims ===================== -/

/-- Helper: under uniformly malformed JSON responses, the retry loop runs
through all of its remaining iterations, sleeping 2 s between attempts, and
ends in the `ValueError`. -/
theorem retryGo_malformed (respond : Nat → RemoteResult) (parse : String → Option JValue)
    (maxRetries : Nat)
    (hmal : ∀ n, ∃ t, respond n = RemoteResult.ok t ∧ parse (cleanResponse t) = none) :
    ∀ fuel attempt, attempt + fuel = maxRetries → 0 < fuel →
      retryGo respond parse "json" maxRetries attempt fuel =
        (RequestOutcome.valueError, fuel, List.replicate (fuel - 1) 2) := by
  intro fuel
  induction fuel with
  | zero => intro attempt _ h0; exact absurd h0 (lt_irrefl 0)
  | succ fuel ih =>
    intro attempt hsum _
    obtain ⟨t, hok, hparse⟩ := hmal attempt
    rcases Nat.eq_zero_or_pos fuel with hf | hf
    · subst hf
      have hlt : ¬(attempt < maxRetries - 1) := by omega
      simp [retryGo, hok, hparse, hlt]
    · obtain ⟨k, rfl⟩ : ∃ k, fuel = k + 1 := ⟨fuel - 1, by omega⟩
      have hlt : attempt < maxRetries - 1 := by omega
      have hrec := ih (attempt + 1) (by omega) (by omega)
      simp only [retryGo, beq_self_eq_true, if_true] at hrec
      simp only [retryGo, hok, hparse, hlt, beq_self_eq_true, if_true, Option.isSome_none,
        Bool.false_eq_true, if_false]
      rw [hrec]
      simp [List.replicate_succ]

/-- C2: when every remote response is malformed JSON under the expected
structured-JSON format, `_make_request_with_retry` issues exactly the
configured maximum number of attempts, sleeps a fixed 2 seconds between
consecutive attempts, and ends with the `ValueError`. -/
theorem c2_retry_exhausts_attempts (generate : String → Nat → RemoteResult)
    (parse : String → Option JValue) (prompt : String) (maxRetries : Nat)
    (hpos : 0 < maxRetries)
    (hmal : ∀ n, ∃ t, generate prompt n = RemoteResult.ok t ∧ parse (cleanResponse t) = none) :
    makeRequestWithRetry generate parse prompt "json" maxRetries =
      (RequestOutcome.valueError, maxRetries, List.replicate (maxRetries - 1) 2) := by
  unfold makeRequestWithRetry
  exact retryGo_malformed (generate prompt) parse maxRetries hmal maxRetries 0 (by omega) hpos

/-- Witness for C2 at the default `max_retries = 3`: three attempts, two 2 s
pauses, then the validation error. -/
theorem c2_retry_exhausts_attempts_witness :
    0 < 3 ∧ makeRequestWithRetry (fun _ _ => RemoteResult.ok "not json") (fun _ => none)
      "p" "json" 3 = (RequestOutcome.valueError, 3, [2, 2]) :=
  ⟨by decide, by
    have h := c2_retry_exhausts_attempts (fun _ _ => RemoteResult.ok "not json")
      (fun _ => none) "p" 3 (by decide) (fun n => ⟨"not json", rfl, rfl⟩)
    simpa using h⟩

/-- C1 counterexample: a batch of one prompt whose call does not complete
within the 30 s timeout (empty completion schedule) does not yield a
1-element list — `as_completed` raises `TimeoutError` from the iterator,
outside the per-future `try`, and the exception propagates. -/
theorem c1_parallel_timeout_counterexample :
    processRequestsParallel [RequestOutcome.success "x"] [] = PyResult.timeoutError := by
  decide

/-- C1 as amended: when every submitted call completes within the 30 s
timeout, `_process_requests_parallel` returns exactly N results for N
prompts, with the empty string standing in for every prompt whose call
raised; when not all calls complete in time, no list is returned at all —
the `TimeoutError` propagates to the caller. -/
theorem c1_parallel_returns_n_results (outcomes : List RequestOutcome) (order : List Nat)
    (hall : order.length = outcomes.length) :
    ∃ l : List String, processRequestsParallel outcomes order = PyResult.ok l ∧
      l.length = outcomes.length ∧
      ∀ (j i : Nat), order[j]? = some i →
        (∀ t, outcomes.get? i ≠ some (RequestOutcome.success t)) →
        l[j]? = some "" := by
  refine ⟨order.map (resultString outcomes), ?_, ?_, ?_⟩
  · unfold processRequestsParallel
    rw [if_neg (by omega)]
  · rw [List.length_map, hall]
  · intro j i hj hfail
    rw [List.getElem?_map, hj, Option.map_some']
    congr 1
    unfold resultString
    cases ho : outcomes.get? i with
    | none => rfl
    | some o =>
      cases o with
      | success t => exact absurd ho (hfail t)
      | valueError => rfl
      | raised => rfl
      | retNone => rfl

/-- Witness for the amended C1: a two-prompt batch completing out of order
within the timeout, the second call having failed. -/
theorem c1_parallel_returns_n_results_witness :
    processRequestsParallel [RequestOutcome.success "a", RequestOutcome.raised] [1, 0] =
      PyResult.ok ["", "a"] ∧ (["", "a"] : List String).length = 2 := by
  obtain ⟨l, h1, h2, h3⟩ := c1_parallel_returns_n_results
    [RequestOutcome.success "a", RequestOutcome.raised] [1, 0] rfl
  have hrfl : processRequestsParallel [RequestOutcome.success "a", RequestOutcome.raised] [1, 0] =
      PyResult.ok ["", "a"] := by decide
  exact ⟨hrfl, by decide⟩

/-- C6: whenever the retry primitive does not return a successful response
for the comprehensive prompt (remote failure re-raised, or JSON validation
exhausted), `analyze_profile_complete` returns the hard-coded default
interests with empty match and suggestion lists instead of propagating. -/
theorem c6_complete_never_propagates (generate : String → Nat → RemoteResult)
    (parse : String → Option JValue) (bio : String) (postCaptions trendingHashtags : List String)
    (hfail : ∀ t, (makeRequestWithRetry generate parse
        (buildCompletePrompt bio postCaptions trendingHashtags) "json" 3).1 ≠
        RequestOutcome.success t) :
    analyzeProfileComplete generate parse bio postCaptions trendingHashtags = defaultAnalysis := by
  unfold analyzeProfileComplete analyzeCompleteBody
  cases ho : (makeRequestWithRetry generate parse
      (buildCompletePrompt bio postCaptions trendingHashtags) "json" 3).1 with
  | success t => exact absurd ho (hfail t)
  | valueError => rfl
  | raised => rfl
  | retNone => rfl

/-- Witness for C6: a remote call that always raises yields the default
analysis dict. -/
theorem c6_complete_never_propagates_witness :
    analyzeProfileComplete (fun _ _ => RemoteResult.exn) (fun _ => none) "" [] [] =
      defaultAnalysis :=
  c6_complete_never_propagates _ _ _ _ _ (fun t h => by
    rw [show (makeRequestWithRetry (fun _ _ => RemoteResult.exn) (fun _ => none)
      (buildCompletePrompt "" [] []) "json" 3).1 = RequestOutcome.raised from rfl] at h
    exact RequestOutcome.noConfusion h)

/-- C7: the validated match and suggestion operations return only lists all
of whose elements are dicts carrying the required keys; on a successfully
parsed list, the list is returned when every element validates and discarded
wholesale (empty list) when any element lacks a required key. -/
theorem c7_validation_policy (g1 g2 : String → Nat → RemoteResult)
    (parse : String → Option JValue) (ui : UserInterestsM)
    (trendingHashtags matchedHashtags : List String) :
    (∀ m ∈ matchTrendsToInterests g1 parse ui trendingHashtags, isValidMatch m = true) ∧
    (∀ s ∈ generatePostSuggestions g2 parse ui matchedHashtags, isValidSuggestion s = true) ∧
    (∀ t1 xs, (makeRequestWithRetry g1 parse (buildMatchPrompt ui trendingHashtags) "json" 3).1 =
        RequestOutcome.success t1 → parse t1 = some (JValue.arr xs) →
      matchTrendsToInterests g1 parse ui trendingHashtags =
        (if xs.all isValidMatch then xs else [])) ∧
    (∀ t2 ys, (makeRequestWithRetry g2 parse (buildSuggestPrompt ui matchedHashtags) "json" 3).1 =
        RequestOutcome.success t2 → parse t2 = some (JValue.arr ys) →
      generatePostSuggestions g2 parse ui matchedHashtags =
        (if ys.all isValidSuggestion then ys else [])) := by
  refine ⟨?_, ?_, ?_, ?_⟩
  · intro m hm
    unfold matchTrendsToInterests at hm
    split at hm
    all_goals try exact absurd hm (List.not_mem_nil m)
    split at hm
    all_goals try exact absurd hm (List.not_mem_nil m)
    split at hm
    · next hall => exact List.all_eq_true.mp hall m hm
    · exact absurd hm (List.not_mem_nil m)
  · intro s hs
    unfold generatePostSuggestions at hs
    split at hs
    all_goals try exact absurd hs (List.not_mem_nil s)
    split at hs
    all_goals try exact absurd hs (List.not_mem_nil s)
    split at hs
    · next hall => exact List.all_eq_true.mp hall s hs
    · exact absurd hs (List.not_mem_nil s)
  · intro t1 xs hsucc hparse
    unfold matchTrendsToInterests
    simp only [hsucc, hparse]
  · intro t2 ys hsucc hparse
    unfold generatePostSuggestions
    simp only [hsucc, hparse]

/-- Witness for C7: a parsed list whose single element lacks the score key
is discarded by both operations. -/
theorem c7_validation_policy_witness :
    matchTrendsToInterests (fun _ _ => RemoteResult.ok "R")
      (fun _ => some (JValue.arr [JValue.obj [("hashtag", JValue.str "#x")]]))
      ⟨[], "", [], "", ""⟩ [] = [] ∧
    generatePostSuggestions (fun _ _ => RemoteResult.ok "R")
      (fun _ => some (JValue.arr [JValue.obj [("hashtag", JValue.str "#x")]]))
      ⟨[], "", [], "", ""⟩ [] = [] := by
  obtain ⟨_, _, h3, h4⟩ := c7_validation_policy (fun _ _ => RemoteResult.ok "R")
    (fun _ _ => RemoteResult.ok "R")
    (fun _ => some (JValue.arr [JValue.obj [("hashtag", JValue.str "#x")]]))
    ⟨[], "", [], "", ""⟩ [] []
  constructor
  · exact (h3 "R" [JValue.obj [("hashtag", JValue.str "#x")]] rfl rfl).trans (by rfl)
  · exact (h4 "R" [JValue.obj [("hashtag", JValue.str "#x")]] rfl rfl).trans (by rfl)

/-- C8: the comprehensive prompt depends only on the first 200 characters of
the bio, the first 3 captions each capped at 100 characters, and the first
10 trending hashtags — truncating the inputs to those caps leaves the prompt
unchanged. -/
theorem c8_complete_prompt_truncates (bio : String) (postCaptions trendingHashtags : List String) :
    buildCompletePrompt bio postCaptions trendingHashtags =
      buildCompletePrompt (pyTake bio 200)
        ((postCaptions.take 3).map (fun c => pyTake c 100)) (trendingHashtags.take 10) := by
  have hTake : ∀ (s : String) (n : Nat), pyTake (pyTake s n) n = pyTake s n := by
    intro s n
    simp [pyTake, String.toList, List.take_take]
  have hcap : (((postCaptions.take 3).map (fun c => pyTake c 100)).take 3).map
      (fun caption => "- " ++ pyTake caption 100) =
      (postCaptions.take 3).map (fun caption => "- " ++ pyTake caption 100) := by
    rw [← List.map_take, List.take_take, min_self, List.map_map]
    apply List.map_congr_left
    intro a _
    simp [Function.comp, hTake]
  have hhash : (trendingHashtags.take 10).take 10 = trendingHashtags.take 10 := by
    rw [List.take_take, min_self]
  simp only [buildCompletePrompt]
  rw [hcap, hhash, hTake]

/-- C9: the list built by `_process_requests_parallel` is in completion
order, not submission order; and `analyze_profile_fast` still reads index 0
as the profile response, index 1 as the match response and index 2 as the
suggestion response.  Concretely, under the completion schedule [1, 0, 2]
with a model that echoes prompts and a decoder that accepts only the
trend-matching prompt, the profile-interests facet is populated from the
trend-matching response even though the profile prompt's own call failed. -/
theorem c9_results_in_completion_order :
    (∀ (outcomes : List RequestOutcome) (order : List Nat),
      order.length = outcomes.length →
      processRequestsParallel outcomes order = PyResult.ok (order.map (resultString outcomes))) ∧
    analyzeProfileFast echoGen demoParse "" [] [] [1, 0, 2] =
      (some ⟨["sports"], "casual", ["photos"], "general", "personal"⟩,
        JValue.arr [], JValue.arr []) ∧
    (makeRequestWithRetry echoGen demoParse ((buildFastPrompts "" [] []).getD 0 "") "json" 3).1 =
      RequestOutcome.valueError := by
  refine ⟨?_, rfl, rfl⟩
  intro outcomes order h
  unfold processRequestsParallel
  rw [if_neg (by omega)]

/-- Witness for C9: a three-prompt batch whose completion order is [1, 0, 2]
yields the results in that order. -/
theorem c9_results_in_completion_order_witness :
    processRequestsParallel
      [RequestOutcome.valueError, RequestOutcome.success "match response",
       RequestOutcome.valueError] [1, 0, 2] = PyResult.ok ["match response", "", ""] := by
  have h := c9_results_in_completion_order.1
    [RequestOutcome.valueError, RequestOutcome.success "match response",
     RequestOutcome.valueError] [1, 0, 2] rfl
  exact h.trans (by decide)
